import Mathlib

/-!
Shallow embedding of `packages/next/src/cli/next-dev.ts`: the dev-session
supervisor (session stop handler, router worker creation and cleanup,
config-change restart orchestration, HTTPS certificate selection, and the
`allowRetry` computation).  Pure state-and-trace model: every handler is a
function from an explicit state plus an environment of external outcomes
(which external calls throw) to a successor state and a list of emitted
side effects, in the order the source performs them.
-/

namespace NextDev

/-- JavaScript truthiness of an optional string value (`undefined` and the
empty string are falsy, every other string is truthy). -/
def jsTruthy : Option String → Bool
  | none => false
  | some s => s != ""

/-! ## Session stop handler (`handleSessionStop`, lines 40-109) -/

/-- Observable side effects of the session stop handler, in source order:
the fallback `loadConfig`, `telemetry.record`, `telemetry.flushDetached`,
`uploadTrace`, the two `process.stdout.write` calls and `process.exit`. -/
inductive StopEffect where
  | loadConfig
  | telemetryRecord
  | telemetryFlushDetached
  | traceUpload
  | writeCursorShow
  | writeNewline
  | exitProcess (code : Nat)
  deriving DecidableEq, Repr

/-- Outcomes of the external calls made by the stop handler: which of them
throw when invoked, and which trace globals are already populated. -/
structure StopEnv where
  loadConfigThrows : Bool
  telemetryGlobalSet : Bool
  telemetryCtorThrows : Bool
  pagesGlobalsSet : Bool
  findPagesDirThrows : Bool
  recordThrows : Bool
  flushThrows : Bool
  uploadThrows : Bool
  deriving DecidableEq, Repr

/-- The module-level session state read and written by the stop handler:
`sessionStopHandled`, whether `config` is already assigned, and
`traceUploadUrl`. -/
structure SessionState where
  sessionStopHandled : Bool
  configLoaded : Bool
  traceUploadUrl : Option String
  deriving DecidableEq, Repr

/-- The `try { ... } catch (_) {}` block of `handleSessionStop`
(lines 44-92): the fallback config load, telemetry recorder construction,
routing-convention detection, `record` and `flushDetached`, each aborting
the block (with the exception swallowed) when it throws.  Returns whether
`config` is assigned afterwards and the effects performed. -/
def tryBlock (env : StopEnv) (s : SessionState) : Bool × List StopEffect :=
  if !s.configLoaded && env.loadConfigThrows then
    (false, [])
  else
    let e1 : List StopEffect :=
      if s.configLoaded then [] else [StopEffect.loadConfig]
    if !env.telemetryGlobalSet && env.telemetryCtorThrows then (true, e1)
    else if !env.pagesGlobalsSet && env.findPagesDirThrows then (true, e1)
    else if env.recordThrows then (true, e1)
    else
      let e2 := e1 ++ [StopEffect.telemetryRecord]
      if env.flushThrows then (true, e2)
      else (true, e2 ++ [StopEffect.telemetryFlushDetached])

/-- The handler `handleSessionStop` (lines 40-109).  Returns the successor state, the
effect trace, and whether an exception escaped the handler.  The guard on
`sessionStopHandled` is checked and the flag set before anything else.
After the swallowing try block, the `if (traceUploadUrl)` branch runs
outside any try: reading `config.distDir` throws when `config` is still
undefined, and a throwing `uploadTrace` also escapes; either way the
cursor-restore writes and `process.exit(0)` are skipped. -/
def handleSessionStop (env : StopEnv) (s : SessionState) :
    SessionState × List StopEffect × Bool :=
  if s.sessionStopHandled then (s, [], false)
  else
    let r := tryBlock env s
    let s2 : SessionState :=
      { s with sessionStopHandled := true, configLoaded := r.1 }
    if jsTruthy s.traceUploadUrl then
      if !r.1 then (s2, r.2, true)
      else if env.uploadThrows then (s2, r.2, true)
      else
        (s2,
          r.2 ++ [StopEffect.traceUpload, StopEffect.writeCursorShow,
            StopEffect.writeNewline, StopEffect.exitProcess 0],
          false)
    else
      (s2,
        r.2 ++ [StopEffect.writeCursorShow, StopEffect.writeNewline,
          StopEffect.exitProcess 0],
        false)

/-- A run of `n` successive deliveries of SIGINT/SIGTERM, each running
`handleSessionStop` on the state left by the previous one; the effect
traces are concatenated in order. -/
def runStopN : Nat → StopEnv → SessionState → SessionState × List StopEffect
  | 0, _, s => (s, [])
  | n + 1, env, s =>
      let r := handleSessionStop env s
      let rest := runStopN n env r.1
      (rest.1, r.2.1 ++ rest.2)

/-! ## Router worker creation and cleanup (`createRouterWorker`, lines 126-206) -/

/-- Process-level events the supervisor attaches listeners to: the
parent's `exit`, `SIGINT`, `SIGTERM`, `uncaughtException` and
`unhandledRejection`, and the exit event of the child worker process
identified by `workerId`. -/
inductive ProcEvent where
  | procExit
  | sigint
  | sigterm
  | uncaughtException
  | unhandledRejection
  | childExit (workerId : Nat)
  deriving DecidableEq, Repr

/-- The listener closures the source registers: the module-level
`handleSessionStop` (lines 111-112) and the synchronous `cleanup` closure
created for the worker with the given id (lines 157-164). -/
inductive Listener where
  | sessionStop
  | workerCleanup (workerId : Nat)
  deriving DecidableEq, Repr

/-- The registered listeners, in registration order. -/
abbrev ListenerTable := List (ProcEvent × Listener)

/-- The maximum respawn count `maxRetries` given to the worker pool
(line 134). -/
def workerMaxRetries : Nat := 8

/-- The six registrations `createRouterWorker` performs for worker `w`
(lines 170-177): the child exit listener and the five parent-process
listeners, all funnelling into the same `cleanup` closure. -/
def routerWorkerListeners (w : Nat) : ListenerTable :=
  [(ProcEvent.childExit w, Listener.workerCleanup w),
   (ProcEvent.procExit, Listener.workerCleanup w),
   (ProcEvent.sigint, Listener.workerCleanup w),
   (ProcEvent.sigterm, Listener.workerCleanup w),
   (ProcEvent.uncaughtException, Listener.workerCleanup w),
   (ProcEvent.unhandledRejection, Listener.workerCleanup w)]

/-- Attaching the listeners for a freshly created worker `w` onto the
current listener table. -/
def registerRouterWorker (w : Nat) (t : ListenerTable) : ListenerTable :=
  t ++ routerWorkerListeners w

/-- The `off` calls of the asynchronous cleanup (lines 191-202): each
removes one instance of the `cleanup` closure from the corresponding
event, mirroring `ChildProcess.off` / `process.off`. -/
def unregisterRouterWorker (w : Nat) (t : ListenerTable) : ListenerTable :=
  (routerWorkerListeners w).foldl (fun acc p => acc.erase p) t

/-- Effects of the worker-level cleanup routines. -/
inductive WorkerEffect where
  | killChildSigint (w : Nat)
  | workerEnd (w : Nat)
  | exitProcess (code : Nat)
  deriving DecidableEq, Repr

/-- The synchronous `cleanup` closure (lines 157-164): sends SIGINT to the
pooled child process and then calls `process.exit(0)`. -/
def syncCleanup (w : Nat) : List WorkerEffect :=
  [WorkerEffect.killChildSigint w, WorkerEffect.exitProcess 0]

/-- Dispatch of a process event against the listener table: every
`workerCleanup` listener attached to that event runs the synchronous
cleanup, in registration order. -/
def dispatchEvent (t : ListenerTable) (e : ProcEvent) : List WorkerEffect :=
  t.foldr
    (fun p acc =>
      if p.1 = e then
        match p.2 with
        | Listener.sessionStop => acc
        | Listener.workerCleanup w => syncCleanup w ++ acc
      else acc)
    []

/-- The asynchronous cleanup returned by `createRouterWorker`
(lines 189-205): unregister every listener registered for worker `w`,
then `await worker.end()`. -/
def asyncCleanup (w : Nat) (t : ListenerTable) :
    ListenerTable × List WorkerEffect :=
  (unregisterRouterWorker w t, [WorkerEffect.workerEnd w])

/-! ## Dev-server orchestration (`nextDev`, `runDevServer`, lines 208-433) -/

/-- Certificate material passed to the `startServer` remote call:
either the two explicit paths after `path.resolve` (lines 376-379), or
the self-signed certificate generated for the configured hostname
(line 381). -/
inductive CertMaterial where
  | resolvedPaths (key cert : String)
  | selfSigned (host : Option String)
  deriving DecidableEq, Repr

/-- The parsed command-line arguments the orchestration reads. -/
structure DevArgs where
  port : Option Nat
  hostname : Option String
  experimentalHttps : Bool
  httpsKey : Option String
  httpsCert : Option String
  experimentalTestProxy : Bool
  uploadTraceUrl : Option String
  deriving DecidableEq, Repr

/-- The environment variables the orchestration reads: `PORT` and the
`__NEXT_DISABLE_MEMORY_WATCHER` escape hatch. -/
structure DevEnv where
  portEnv : Option String
  disableWatcher : Bool
  deriving DecidableEq, Repr

/-- The flag `allowRetry` (lines 300-301): true exactly when neither `--port` nor
the `PORT` environment variable is set (`=== undefined` on both). -/
def allowRetry (args : DevArgs) (env : DevEnv) : Bool :=
  args.port.isNone && env.portEnv.isNone

/-- The `StartServerOptions` payload (lines 337-346), plus the
`selfSignedCertificate` field merged in by the HTTPS branch (line 386);
it is absent (`none`) in the payload built at lines 337-346. -/
structure StartOptions where
  dir : String
  port : Nat
  allowRetry : Bool
  isDev : Bool
  hostname : Option String
  isExperimentalTestProxy : Bool
  envInfo : List String
  expFeatureInfo : List String
  selfSignedCertificate : Option CertMaterial
  deriving DecidableEq, Repr

/-- The payload `devServerOptions` as built at lines 337-346 from the parsed
arguments, the resolved port, and the env/feature info lists. -/
def mkDevServerOptions (args : DevArgs) (env : DevEnv) (dir : String)
    (port : Nat) (envInfo expFeatureInfo : List String) : StartOptions :=
  { dir := dir
    port := port
    allowRetry := allowRetry args env
    isDev := true
    hostname := args.hostname
    isExperimentalTestProxy := args.experimentalTestProxy
    envInfo := envInfo
    expFeatureInfo := expFeatureInfo
    selfSignedCertificate := none }

/-- The certificate chosen by the HTTPS branch of `runDevServer`
(lines 365-390): with `--experimental-https` set, the two explicit paths
(resolved) when both are truthy, otherwise a self-signed certificate for
the configured hostname; without the flag, no certificate at all. -/
def certificateFor (args : DevArgs) : Option CertMaterial :=
  if args.experimentalHttps then
    if jsTruthy args.httpsKey && jsTruthy args.httpsCert then
      some (CertMaterial.resolvedPaths (args.httpsKey.getD "")
        (args.httpsCert.getD ""))
    else some (CertMaterial.selfSigned args.hostname)
  else none

/-- Observable actions of the orchestration, in source order. -/
inductive DevAction where
  | loadConfig
  | logInfoManualRestart
  | logWarnRestart (filename : String)
  | cleanupWorker (id : Nat)
  | createWorker (id : Nat)
  | startServer (id : Nat) (opts : StartOptions)
  | preflightCheck (skipOnReboot : Bool)
  | consoleError
  | exitProcess (code : Nat)
  deriving DecidableEq, Repr

/-- Outcomes of the fallible awaited calls inside `runDevServer` and the
config-change handler: which of them reject. -/
structure FailEnv where
  createWorkerThrows : Bool
  selfSignedCertThrows : Bool
  startServerThrows : Bool
  cleanupThrows : Bool
  deriving DecidableEq, Repr

/-- Orchestrator state: the `runningServer` reference (the id of the
worker whose cleanup it holds), the ids of workers currently serving,
a fresh-id counter, and whether `process.exit` has been reached. -/
structure OrchState where
  runningServer : Option Nat
  serving : List Nat
  nextId : Nat
  terminated : Bool
  deriving DecidableEq, Repr

/-- The function `runDevServer` (lines 361-400): create the router worker, optionally
provision certificate material, issue the `startServer` remote call, run
the preflight check; any rejection is caught, printed with
`console.error` and followed by `process.exit(1)`.  Returns the
successor state, the action trace, and the id of the new running server
(`none` when the sequence failed and the process exited). -/
def runDevServer (fe : FailEnv) (args : DevArgs) (opts : StartOptions)
    (reboot : Bool) (s : OrchState) :
    OrchState × List DevAction × Option Nat :=
  let w := s.nextId
  if fe.createWorkerThrows then
    ({ s with terminated := true },
      [DevAction.consoleError, DevAction.exitProcess 1], none)
  else if args.experimentalHttps
      && !(jsTruthy args.httpsKey && jsTruthy args.httpsCert)
      && fe.selfSignedCertThrows then
    ({ s with nextId := w + 1, terminated := true },
      [DevAction.createWorker w, DevAction.consoleError,
        DevAction.exitProcess 1], none)
  else
    let payload :=
      if args.experimentalHttps then
        { opts with selfSignedCertificate := certificateFor args }
      else opts
    if fe.startServerThrows then
      ({ s with nextId := w + 1, terminated := true },
        [DevAction.createWorker w, DevAction.consoleError,
          DevAction.exitProcess 1], none)
    else
      ({ s with
          nextId := w + 1
          serving := s.serving ++ [w]
          runningServer := some w },
        [DevAction.createWorker w, DevAction.startServer w payload,
          DevAction.preflightCheck reboot], some w)

/-- The state after awaiting `runningServer.cleanup()` on worker `old`:
that worker is no longer serving and the reference is released. -/
def afterCleanup (s : OrchState) (old : Nat) : OrchState :=
  { s with serving := s.serving.erase old, runningServer := none }

/-- Whether the awaited start sequence of `runDevServer` rejects at some
point: worker creation, self-signed certificate provisioning (reached
only with `--experimental-https` and at least one of the two explicit
paths missing), or the `startServer` remote call. -/
def startFails (fe : FailEnv) (args : DevArgs) : Bool :=
  fe.createWorkerThrows ||
    (args.experimentalHttps &&
      !(jsTruthy args.httpsKey && jsTruthy args.httpsCert) &&
      fe.selfSignedCertThrows) ||
    fe.startServerThrows

/-- The config-change callback installed by `watchConfigFiles`
(lines 404-428): when the disable-watcher environment flag is set, log
the manual-restart notice and return; otherwise log the change, await
`cleanup()` on the running server reference when one exists, then run
`runDevServer(true)` and replace the reference; an exception from the
cleanup is caught, printed, and followed by `process.exit(1)`.  A
terminated process handles no further events. -/
def onConfigChange (fe : FailEnv) (args : DevArgs) (env : DevEnv)
    (opts : StartOptions) (filename : String) (s : OrchState) :
    OrchState × List DevAction :=
  if s.terminated then (s, [])
  else if env.disableWatcher then (s, [DevAction.logInfoManualRestart])
  else
    match s.runningServer with
    | some old =>
        if fe.cleanupThrows then
          ({ s with terminated := true },
            [DevAction.logWarnRestart filename, DevAction.consoleError,
              DevAction.exitProcess 1])
        else
          let r := runDevServer fe args opts true (afterCleanup s old)
          (r.1,
            DevAction.logWarnRestart filename ::
              DevAction.cleanupWorker old :: r.2.1)
    | none =>
        let r := runDevServer fe args opts true s
        (r.1, DevAction.logWarnRestart filename :: r.2.1)

/-- Initial startup (lines 310-324 and 430-432): resolve the config once
with `loadConfig`, then run `runDevServer(false)` and store the running
server reference. -/
def nextDevStart (fe : FailEnv) (args : DevArgs) (opts : StartOptions)
    (s : OrchState) : OrchState × List DevAction :=
  let r := runDevServer fe args opts false s
  (r.1, DevAction.loadConfig :: r.2.1)

/-- The fresh orchestrator state at process start. -/
def initState : OrchState :=
  { runningServer := none, serving := [], nextId := 0, terminated := false }

/-- The listeners installed at module load (lines 111-112). -/
def baseListeners : ListenerTable :=
  [(ProcEvent.sigint, Listener.sessionStop),
   (ProcEvent.sigterm, Listener.sessionStop)]

/-- A stop-handler environment in which the fallback config load throws
and everything else succeeds. -/
def stopEnvLoadFails : StopEnv :=
  { loadConfigThrows := true
    telemetryGlobalSet := false
    telemetryCtorThrows := false
    pagesGlobalsSet := false
    findPagesDirThrows := false
    recordThrows := false
    flushThrows := false
    uploadThrows := false }

/-- A session interrupted before startup finished loading the config,
with a trace-upload URL configured. -/
def stateUploadNoConfig : SessionState :=
  { sessionStopHandled := false
    configLoaded := false
    traceUploadUrl := some "https://trace.example" }

/-- A plain session state with the config loaded and no upload URL. -/
def statePlain : SessionState :=
  { sessionStopHandled := false
    configLoaded := true
    traceUploadUrl := none }

/-- Arguments with every option left at its default. -/
def argsPlain : DevArgs :=
  { port := none
    hostname := none
    experimentalHttps := false
    httpsKey := none
    httpsCert := none
    experimentalTestProxy := false
    uploadTraceUrl := none }

/-- Environment with the watcher enabled and no `PORT` variable. -/
def envPlain : DevEnv := { portEnv := none, disableWatcher := false }

/-- Environment with the disable-watcher escape hatch set. -/
def envNoWatch : DevEnv := { portEnv := none, disableWatcher := true }

/-- A failure environment in which every awaited call succeeds. -/
def feOk : FailEnv :=
  { createWorkerThrows := false
    selfSignedCertThrows := false
    startServerThrows := false
    cleanupThrows := false }

/-- A failure environment in which the `startServer` remote call rejects. -/
def feStartFails : FailEnv :=
  { createWorkerThrows := false
    selfSignedCertThrows := false
    startServerThrows := true
    cleanupThrows := false }

/-- The options snapshot built at startup for the plain fixtures. -/
def optsPlain : StartOptions :=
  mkDevServerOptions argsPlain envPlain "/proj" 3000 [] []

/-- The orchestrator state right after a successful initial start. -/
def afterFirstStart : OrchState :=
  { runningServer := some 0, serving := [0], nextId := 1, terminated := false }

/-- A process-exit effect with a non-zero status code. -/
def isNonzeroExit : WorkerEffect → Bool
  | WorkerEffect.exitProcess c => c != 0
  | _ => false

/-- A handler invocation finding the flag already set returns at once,
with no effects and no exception. -/
theorem handleSessionStop_handled (env : StopEnv) (s : SessionState)
    (h : s.sessionStopHandled = true) :
    handleSessionStop env s = (s, [], false) := by
  simp [handleSessionStop, h]

/-- Every branch of a first invocation leaves the flag set. -/
theorem handleSessionStop_sets_flag (env : StopEnv) (s : SessionState)
    (h : s.sessionStopHandled = false) :
    ((handleSessionStop env s).1).sessionStopHandled = true := by
  cases hurl : jsTruthy s.traceUploadUrl <;>
    cases hcfg : (tryBlock env s).1 <;>
    cases hup : env.uploadThrows <;>
    simp [handleSessionStop, h, hurl, hcfg, hup]

/-- Once the flag is set, any further run of the handler loop is inert. -/
theorem runStopN_handled (n : Nat) (env : StopEnv) (s : SessionState)
    (h : s.sessionStopHandled = true) :
    runStopN n env s = (s, []) := by
  induction n with
  | zero => simp [runStopN]
  | succ m ih =>
      simp [runStopN, handleSessionStop_handled env s h, ih]

/-- C1: For every sequence of N ≥ 1 SIGINT/SIGTERM deliveries, the stop
handler body runs at most once: the first invocation sets the
`sessionStopHandled` flag (whatever the outcome of its asynchronous
work), the trace of the whole sequence equals the trace of the first
invocation alone, and any invocation finding the flag set returns
immediately with no side effect. -/
theorem stop_handler_runs_body_at_most_once (env : StopEnv)
    (s : SessionState) (n : Nat) (hs : s.sessionStopHandled = false)
    (hn : 1 ≤ n) :
    ((handleSessionStop env s).1).sessionStopHandled = true ∧
    (runStopN n env s).2 = (handleSessionStop env s).2.1 ∧
    ∀ env' s', s'.sessionStopHandled = true →
      handleSessionStop env' s' = (s', [], false) := by
  refine ⟨handleSessionStop_sets_flag env s hs, ?_,
    fun env' s' h' => handleSessionStop_handled env' s' h'⟩
  obtain ⟨m, rfl⟩ : ∃ m, n = m + 1 := ⟨n - 1, (Nat.succ_pred_eq_of_pos hn).symm⟩
  have hset := handleSessionStop_sets_flag env s hs
  simp [runStopN, runStopN_handled m env _ hset]

/-- Witness for C1 at a concrete environment, state and N = 3. -/
theorem stop_handler_runs_body_at_most_once_witness :
    statePlain.sessionStopHandled = false ∧ 1 ≤ 3 ∧
    (((handleSessionStop stopEnvLoadFails statePlain).1).sessionStopHandled
        = true ∧
      (runStopN 3 stopEnvLoadFails statePlain).2 =
        (handleSessionStop stopEnvLoadFails statePlain).2.1 ∧
      ∀ env' s', s'.sessionStopHandled = true →
        handleSessionStop env' s' = (s', [], false)) :=
  ⟨by decide, by decide,
    stop_handler_runs_body_at_most_once stopEnvLoadFails statePlain 3
      (by decide) (by decide)⟩

/-- C2 counterexample: with a trace-upload URL configured and the config
snapshot unavailable (its fallback load threw — an exception in step 1,
duly swallowed), step 5 reads `config.distDir` outside any try block and
throws; the exception escapes the handler and neither the cursor-show
write, nor the newline, nor `process.exit(0)` happens. -/
theorem stop_handler_upload_escape_counterexample :
    (handleSessionStop stopEnvLoadFails stateUploadNoConfig).2.2 = true ∧
    StopEffect.writeCursorShow ∉
      (handleSessionStop stopEnvLoadFails stateUploadNoConfig).2.1 ∧
    StopEffect.writeNewline ∉
      (handleSessionStop stopEnvLoadFails stateUploadNoConfig).2.1 ∧
    StopEffect.exitProcess 0 ∉
      (handleSessionStop stopEnvLoadFails stateUploadNoConfig).2.1 := by
  decide

/-- The config variable is assigned after the try block exactly when it
was assigned before or the fallback load does not throw. -/
theorem tryBlock_configLoaded (env : StopEnv) (s : SessionState) :
    (tryBlock env s).1 = (s.configLoaded || !env.loadConfigThrows) := by
  cases h1 : s.configLoaded <;> cases h2 : env.loadConfigThrows <;>
    simp [tryBlock, h1, h2] <;>
    split <;> (try split) <;> (try split) <;> (try split) <;> simp

/-- C2 (amended): any exception raised in steps 1-4 (config-snapshot
fallback load, telemetry recorder construction, routing-convention
detection, telemetry record/flush) is swallowed, and whenever step 5
raises no synchronous exception — no trace-upload URL is configured, or
the config snapshot is available and the upload call does not throw —
steps 6-7 run: the cursor-show escape, a trailing newline and
`process.exit(0)` end the trace and no exception escapes. -/
theorem stop_handler_exit_when_upload_safe (env : StopEnv)
    (s : SessionState) (hs : s.sessionStopHandled = false)
    (hsafe : jsTruthy s.traceUploadUrl = false ∨
      ((s.configLoaded || !env.loadConfigThrows) = true ∧
        env.uploadThrows = false)) :
    (handleSessionStop env s).2.2 = false ∧
    ∃ pre, (handleSessionStop env s).2.1 =
      pre ++ [StopEffect.writeCursorShow, StopEffect.writeNewline,
        StopEffect.exitProcess 0] := by
  rcases hsafe with hurl | ⟨hcfg, hup⟩
  · simp [handleSessionStop, hs, hurl]
  · cases hurl : jsTruthy s.traceUploadUrl
    · simp [handleSessionStop, hs, hurl]
    · refine ⟨?_, (tryBlock env s).2 ++ [StopEffect.traceUpload], ?_⟩ <;>
        simp [handleSessionStop, hs, hurl, tryBlock_configLoaded, hcfg, hup]

/-- Witness for the amended C2: an environment in which telemetry record
and flush both throw, with no upload URL configured. -/
theorem stop_handler_exit_when_upload_safe_witness :
    statePlain.sessionStopHandled = false ∧
    ((handleSessionStop stopEnvLoadFails statePlain).2.2 = false ∧
      ∃ pre, (handleSessionStop stopEnvLoadFails statePlain).2.1 =
        pre ++ [StopEffect.writeCursorShow, StopEffect.writeNewline,
          StopEffect.exitProcess 0]) :=
  ⟨by decide,
    stop_handler_exit_when_upload_safe stopEnvLoadFails statePlain
      (by decide) (Or.inl (by decide))⟩

/-! ## Theorems about worker listeners and cleanup -/

/-- Erasing an element appended after a list that does not contain it
removes exactly that appended occurrence. -/
theorem erase_append_fresh {α : Type} [BEq α] [LawfulBEq α] (t : List α)
    (a : α) (r : List α) (h : a ∉ t) : (t ++ a :: r).erase a = t ++ r := by
  induction t with
  | nil => simp
  | cons x xs ih =>
      have hxa : x ≠ a := fun he => h (he ▸ List.mem_cons_self x xs)
      have h' : a ∉ xs := fun hm => h (List.mem_cons_of_mem x hm)
      simp [List.erase_cons, hxa, ih h']

/-- C9: the asynchronous cleanup returned by worker creation removes
every listener that worker creation registered — the child exit listener
and the parent listeners for exit, SIGINT, SIGTERM, uncaught exception
and unhandled rejection — restoring the listener table to exactly its
prior contents, and then gracefully ends the worker. -/
theorem cleanup_unregisters_all_listeners (t : ListenerTable) (w : Nat)
    (h : ∀ e, (e, Listener.workerCleanup w) ∉ t) :
    asyncCleanup w (registerRouterWorker w t) =
      (t, [WorkerEffect.workerEnd w]) := by
  unfold asyncCleanup unregisterRouterWorker registerRouterWorker
    routerWorkerListeners
  simp only [List.foldl_cons, List.foldl_nil]
  rw [erase_append_fresh t _ _ (h _), erase_append_fresh t _ _ (h _),
    erase_append_fresh t _ _ (h _), erase_append_fresh t _ _ (h _),
    erase_append_fresh t _ _ (h _), erase_append_fresh t _ _ (h _)]
  simp

/-- Witness for C9: cleaning up worker 0 after registering it on top of
the module-level signal listeners restores exactly those listeners. -/
theorem cleanup_unregisters_all_listeners_witness :
    (∀ e, (e, Listener.workerCleanup 0) ∉ baseListeners) ∧
    asyncCleanup 0 (registerRouterWorker 0 baseListeners) =
      (baseListeners, [WorkerEffect.workerEnd 0]) :=
  ⟨fun e he => by simp [baseListeners] at he,
    cleanup_unregisters_all_listeners baseListeners 0
      (fun e he => by simp [baseListeners] at he)⟩

/-- Dispatching against a longer table preserves every effect dispatched
against the shorter one. -/
theorem dispatchEvent_mem_cons (x : WorkerEffect)
    (p : ProcEvent × Listener) (t : ListenerTable) (e : ProcEvent)
    (hx : x ∈ dispatchEvent t e) : x ∈ dispatchEvent (p :: t) e := by
  show x ∈ (if p.1 = e then
      match p.2 with
      | Listener.sessionStop => dispatchEvent t e
      | Listener.workerCleanup w => syncCleanup w ++ dispatchEvent t e
    else dispatchEvent t e)
  split
  · cases hl : p.2 with
    | sessionStop => simpa [hl] using hx
    | workerCleanup w => simp [hl]; exact Or.inr hx
  · exact hx

/-- C4 counterexample: with the stop handler and worker 0 registered,
the exit of the child worker process dispatches exactly the synchronous
cleanup — a SIGINT to the pooled child followed by `process.exit(0)` —
and no exit with a non-zero status occurs anywhere in the trace. -/
theorem child_exit_exits_zero_counterexample :
    dispatchEvent (registerRouterWorker 0 baseListeners)
        (ProcEvent.childExit 0) =
      [WorkerEffect.killChildSigint 0, WorkerEffect.exitProcess 0] ∧
    (dispatchEvent (registerRouterWorker 0 baseListeners)
        (ProcEvent.childExit 0)).filter isNonzeroExit = [] := by
  decide

/-- C4 (amended): if the child worker process exits for any reason, the
exit listener registered by worker creation triggers the cleanup, which
terminates the parent process — with status code 0, not a non-zero
status — and the respawn budget handed to the worker pool is 8. -/
theorem child_exit_triggers_parent_exit (t : ListenerTable) (w : Nat)
    (h : (ProcEvent.childExit w, Listener.workerCleanup w) ∈ t) :
    WorkerEffect.exitProcess 0 ∈ dispatchEvent t (ProcEvent.childExit w) ∧
    workerMaxRetries = 8 := by
  refine ⟨?_, rfl⟩
  induction t with
  | nil => cases h
  | cons p rest ih =>
      rcases List.mem_cons.mp h with hp | hmem
      · subst hp
        have hd : dispatchEvent
            ((ProcEvent.childExit w, Listener.workerCleanup w) :: rest)
            (ProcEvent.childExit w) =
            syncCleanup w ++ dispatchEvent rest (ProcEvent.childExit w) := by
          simp [dispatchEvent]
        rw [hd]
        exact List.mem_append_left _ (by simp [syncCleanup])
      · exact dispatchEvent_mem_cons _ _ _ _ (ih hmem)

/-- Witness for the amended C4 at the concrete post-creation table. -/
theorem child_exit_triggers_parent_exit_witness :
    (ProcEvent.childExit 0, Listener.workerCleanup 0) ∈
      registerRouterWorker 0 baseListeners ∧
    (WorkerEffect.exitProcess 0 ∈
        dispatchEvent (registerRouterWorker 0 baseListeners)
          (ProcEvent.childExit 0) ∧
      workerMaxRetries = 8) :=
  ⟨by decide, child_exit_triggers_parent_exit _ 0 (by decide)⟩

/-! ## Theorems about the orchestration -/

/-- No branch of `runDevServer` resolves configuration. -/
theorem runDevServer_no_loadConfig (fe : FailEnv) (args : DevArgs)
    (opts : StartOptions) (reboot : Bool) (s : OrchState) :
    DevAction.loadConfig ∉ (runDevServer fe args opts reboot s).2.1 := by
  unfold runDevServer
  split
  · simp
  · split
    · simp
    · split <;> split <;> simp

/-- No branch of the config-change callback resolves configuration. -/
theorem onConfigChange_no_loadConfig (fe : FailEnv) (args : DevArgs)
    (env : DevEnv) (opts : StartOptions) (f : String) (s : OrchState) :
    DevAction.loadConfig ∉ (onConfigChange fe args env opts f s).2 := by
  intro hm
  unfold onConfigChange at hm
  cases hterm : s.terminated <;> simp [hterm] at hm
  cases hw : env.disableWatcher <;> simp [hw] at hm
  cases hrun : s.runningServer with
  | none =>
      simp [hrun] at hm
      exact runDevServer_no_loadConfig _ _ _ _ _ hm
  | some old =>
      cases hct : fe.cleanupThrows <;> simp [hrun, hct] at hm
      exact runDevServer_no_loadConfig _ _ _ _ _ hm

/-- C5 counterexample: a config-change restart from the state after the
initial start does start a new worker (`startServer` for worker 1 is in
the trace) but performs no configuration reload — the payload is the
very options snapshot resolved at initial startup. -/
theorem restart_no_reload_counterexample :
    DevAction.loadConfig ∉
      (onConfigChange feOk argsPlain envPlain optsPlain "next.config.js"
        afterFirstStart).2 ∧
    DevAction.startServer 1 optsPlain ∈
      (onConfigChange feOk argsPlain envPlain optsPlain "next.config.js"
        afterFirstStart).2 := by
  decide

/-- C5 (amended): the configuration is resolved exactly once, at initial
startup; a config-change restart reuses that snapshot — its trace never
contains a configuration load, for any argument set, environment, state
or failure pattern. -/
theorem config_resolved_once_not_on_restart (fe : FailEnv)
    (args : DevArgs) (env : DevEnv) (opts : StartOptions) (f : String)
    (s : OrchState) :
    DevAction.loadConfig ∈ (nextDevStart fe args opts initState).2 ∧
    DevAction.loadConfig ∉ (onConfigChange fe args env opts f s).2 :=
  ⟨by simp [nextDevStart], onConfigChange_no_loadConfig fe args env opts f s⟩

/-- A failing start sequence prints the error and exits with status 1,
whatever step rejected. -/
theorem runDevServer_fails (fe : FailEnv) (args : DevArgs)
    (opts : StartOptions) (reboot : Bool) (s : OrchState)
    (hf : startFails fe args = true) :
    ∃ l, (runDevServer fe args opts reboot s).2.1 =
        l ++ [DevAction.consoleError, DevAction.exitProcess 1] ∧
      (runDevServer fe args opts reboot s).1.terminated = true := by
  cases hc : fe.createWorkerThrows with
  | true => exact ⟨[], by simp [runDevServer, hc], by simp [runDevServer, hc]⟩
  | false =>
      cases hh : args.experimentalHttps with
      | false =>
          have hss : fe.startServerThrows = true := by
            simpa [startFails, hc, hh] using hf
          exact ⟨[DevAction.createWorker s.nextId],
            by simp [runDevServer, hc, hh, hss],
            by simp [runDevServer, hc, hh, hss]⟩
      | true =>
          cases hkc : (jsTruthy args.httpsKey && jsTruthy args.httpsCert) with
          | false =>
              cases hct : fe.selfSignedCertThrows with
              | true =>
                  exact ⟨[DevAction.createWorker s.nextId],
                    by simp [runDevServer, hc, hh, hkc, hct],
                    by simp [runDevServer, hc, hh, hkc, hct]⟩
              | false =>
                  have hss : fe.startServerThrows = true := by
                    simpa [startFails, hc, hh, hkc, hct] using hf
                  exact ⟨[DevAction.createWorker s.nextId],
                    by simp [runDevServer, hc, hh, hkc, hct, hss],
                    by simp [runDevServer, hc, hh, hkc, hct, hss]⟩
          | true =>
              have hss : fe.startServerThrows = true := by
                simpa [startFails, hc, hh, hkc] using hf
              exact ⟨[DevAction.createWorker s.nextId],
                by simp [runDevServer, hc, hh, hkc, hss],
                by simp [runDevServer, hc, hh, hkc, hss]⟩

/-- C6: every failure of the start sequence (worker creation,
certificate provisioning, or the `startServer` remote call) and every
exception thrown while cleaning up the old worker or starting the new
one during a config-change restart ends with the error printed and
`process.exit(1)`. -/
theorem start_and_restart_failures_fatal (fe : FailEnv) (args : DevArgs)
    (env : DevEnv) (opts : StartOptions) (f : String) (reboot : Bool)
    (s : OrchState) (old : Nat) (hterm : s.terminated = false)
    (hw : env.disableWatcher = false) (hrun : s.runningServer = some old) :
    (startFails fe args = true →
      ∃ l, (runDevServer fe args opts reboot s).2.1 =
          l ++ [DevAction.consoleError, DevAction.exitProcess 1] ∧
        (runDevServer fe args opts reboot s).1.terminated = true) ∧
    ((fe.cleanupThrows || startFails fe args) = true →
      ∃ l, (onConfigChange fe args env opts f s).2 =
          l ++ [DevAction.consoleError, DevAction.exitProcess 1] ∧
        (onConfigChange fe args env opts f s).1.terminated = true) := by
  refine ⟨runDevServer_fails fe args opts reboot s, ?_⟩
  intro hf
  cases hct : fe.cleanupThrows with
  | true =>
      exact ⟨[DevAction.logWarnRestart f],
        by simp [onConfigChange, hterm, hw, hrun, hct],
        by simp [onConfigChange, hterm, hw, hrun, hct]⟩
  | false =>
      have hsf : startFails fe args = true := by simpa [hct] using hf
      obtain ⟨l, hl, ht⟩ :=
        runDevServer_fails fe args opts true (afterCleanup s old) hsf
      refine ⟨DevAction.logWarnRestart f :: DevAction.cleanupWorker old :: l,
        ?_, ?_⟩
      · simp [onConfigChange, hterm, hw, hrun, hct, hl]
      · simpa [onConfigChange, hterm, hw, hrun, hct] using ht

/-- Witness for C6: the `startServer` remote call rejects during the
initial start and during a restart. -/
theorem start_and_restart_failures_fatal_witness :
    afterFirstStart.terminated = false ∧
    envPlain.disableWatcher = false ∧
    afterFirstStart.runningServer = some 0 ∧
    ((startFails feStartFails argsPlain = true →
      ∃ l, (runDevServer feStartFails argsPlain optsPlain false
            afterFirstStart).2.1 =
          l ++ [DevAction.consoleError, DevAction.exitProcess 1] ∧
        (runDevServer feStartFails argsPlain optsPlain false
            afterFirstStart).1.terminated = true) ∧
    ((feStartFails.cleanupThrows || startFails feStartFails argsPlain)
        = true →
      ∃ l, (onConfigChange feStartFails argsPlain envPlain optsPlain
            "next.config.js" afterFirstStart).2 =
          l ++ [DevAction.consoleError, DevAction.exitProcess 1] ∧
        (onConfigChange feStartFails argsPlain envPlain optsPlain
            "next.config.js" afterFirstStart).1.terminated = true)) :=
  ⟨rfl, rfl, rfl,
    start_and_restart_failures_fatal feStartFails argsPlain envPlain
      optsPlain "next.config.js" false afterFirstStart 0 rfl rfl rfl⟩

/-- Every `startServer` call issued by `runDevServer` carries the options
snapshot, with the certificate material merged in exactly when
`--experimental-https` is set. -/
theorem runDevServer_start_payload (fe : FailEnv) (args : DevArgs)
    (opts : StartOptions) (reboot : Bool) (s : OrchState) (w : Nat)
    (o : StartOptions)
    (hm : DevAction.startServer w o ∈
      (runDevServer fe args opts reboot s).2.1) :
    o = (if args.experimentalHttps then
        { opts with selfSignedCertificate := certificateFor args }
      else opts) := by
  unfold runDevServer at hm
  cases hc : fe.createWorkerThrows <;> simp [hc] at hm
  cases hh : args.experimentalHttps <;> simp [hh] at hm
  · cases hss : fe.startServerThrows <;> simp [hss] at hm
    simpa [hh] using hm.2
  · cases hk : jsTruthy args.httpsKey <;> simp [hk] at hm
    · cases hct : fe.selfSignedCertThrows <;> simp [hct] at hm
      cases hss : fe.startServerThrows <;> simp [hss] at hm
      simpa [hh] using hm.2
    · cases hq : jsTruthy args.httpsCert <;> simp [hq] at hm
      · cases hct : fe.selfSignedCertThrows <;> simp [hct] at hm
        cases hss : fe.startServerThrows <;> simp [hss] at hm
        simpa [hh] using hm.2
      · cases hss : fe.startServerThrows <;> simp [hss] at hm
        simpa [hh] using hm.2

/-- Every `startServer` call issued by the config-change callback
carries the same payload shape. -/
theorem onConfigChange_start_payload (fe : FailEnv) (args : DevArgs)
    (env : DevEnv) (opts : StartOptions) (f : String) (s : OrchState)
    (w : Nat) (o : StartOptions)
    (hm : DevAction.startServer w o ∈
      (onConfigChange fe args env opts f s).2) :
    o = (if args.experimentalHttps then
        { opts with selfSignedCertificate := certificateFor args }
      else opts) := by
  unfold onConfigChange at hm
  cases hterm : s.terminated <;> simp [hterm] at hm
  cases hw : env.disableWatcher <;> simp [hw] at hm
  cases hrun : s.runningServer with
  | none =>
      simp [hrun] at hm
      exact runDevServer_start_payload _ _ _ _ _ _ _ hm
  | some old =>
      cases hct : fe.cleanupThrows <;> simp [hrun, hct] at hm
      exact runDevServer_start_payload _ _ _ _ _ _ _ hm

/-- C7: without `--experimental-https` every `startServer` call (initial
and after restart) carries no certificate material; with the flag and
both key/cert paths supplied, it carries exactly those two resolved
paths; with the flag but either path missing, it carries a self-signed
certificate keyed to the configured hostname. -/
theorem start_server_certificate (fe : FailEnv) (args : DevArgs)
    (env : DevEnv) (opts : StartOptions) (f : String) (reboot : Bool)
    (s : OrchState) (hc : opts.selfSignedCertificate = none) :
    (∀ w o, DevAction.startServer w o ∈
        (runDevServer fe args opts reboot s).2.1 →
      o.selfSignedCertificate = certificateFor args) ∧
    (∀ w o, DevAction.startServer w o ∈
        (onConfigChange fe args env opts f s).2 →
      o.selfSignedCertificate = certificateFor args) ∧
    (args.experimentalHttps = false → certificateFor args = none) ∧
    (∀ k c, args.experimentalHttps = true → args.httpsKey = some k →
      k ≠ "" → args.httpsCert = some c → c ≠ "" →
      certificateFor args = some (CertMaterial.resolvedPaths k c)) ∧
    (args.experimentalHttps = true →
      (jsTruthy args.httpsKey && jsTruthy args.httpsCert) = false →
      certificateFor args = some (CertMaterial.selfSigned args.hostname)) := by
  have hcert : ∀ o : StartOptions,
      o = (if args.experimentalHttps then
          { opts with selfSignedCertificate := certificateFor args }
        else opts) →
      o.selfSignedCertificate = certificateFor args := by
    intro o ho
    subst ho
    cases hh : args.experimentalHttps <;> simp [hh, hc, certificateFor]
  refine ⟨fun w o hm => hcert o
      (runDevServer_start_payload fe args opts reboot s w o hm),
    fun w o hm => hcert o
      (onConfigChange_start_payload fe args env opts f s w o hm),
    fun hh => by simp [certificateFor, hh], ?_, ?_⟩
  · intro k c hh hk hkne hcrt hcne
    simp [certificateFor, hh, hk, hcrt, jsTruthy, hkne, hcne]
  · intro hh htf
    simp [certificateFor, hh, htf]

/-- Witness for C7 at the plain fixtures (HTTPS disabled). -/
theorem start_server_certificate_witness :
    optsPlain.selfSignedCertificate = none ∧
    ((∀ w o, DevAction.startServer w o ∈
        (runDevServer feOk argsPlain optsPlain false afterFirstStart).2.1 →
      o.selfSignedCertificate = certificateFor argsPlain) ∧
    (∀ w o, DevAction.startServer w o ∈
        (onConfigChange feOk argsPlain envPlain optsPlain "next.config.js"
          afterFirstStart).2 →
      o.selfSignedCertificate = certificateFor argsPlain) ∧
    (argsPlain.experimentalHttps = false →
      certificateFor argsPlain = none) ∧
    (∀ k c, argsPlain.experimentalHttps = true →
      argsPlain.httpsKey = some k → k ≠ "" →
      argsPlain.httpsCert = some c → c ≠ "" →
      certificateFor argsPlain = some (CertMaterial.resolvedPaths k c)) ∧
    (argsPlain.experimentalHttps = true →
      (jsTruthy argsPlain.httpsKey && jsTruthy argsPlain.httpsCert)
        = false →
      certificateFor argsPlain =
        some (CertMaterial.selfSigned argsPlain.hostname))) :=
  ⟨rfl, start_server_certificate feOk argsPlain envPlain optsPlain
    "next.config.js" false afterFirstStart rfl⟩

/-- C8: while the disable-watcher environment flag is set, a
config-change event only emits the manual-restart notice and leaves the
whole orchestrator state — including the running server reference —
unchanged: no cleanup, no worker creation, no `startServer`. -/
theorem disable_watcher_skips_restart (fe : FailEnv) (args : DevArgs)
    (env : DevEnv) (opts : StartOptions) (f : String) (s : OrchState)
    (hterm : s.terminated = false) (hw : env.disableWatcher = true) :
    onConfigChange fe args env opts f s =
      (s, [DevAction.logInfoManualRestart]) := by
  simp [onConfigChange, hterm, hw]

/-- Witness for C8 with the escape hatch set. -/
theorem disable_watcher_skips_restart_witness :
    afterFirstStart.terminated = false ∧
    envNoWatch.disableWatcher = true ∧
    onConfigChange feOk argsPlain envNoWatch optsPlain "next.config.js"
        afterFirstStart =
      (afterFirstStart, [DevAction.logInfoManualRestart]) :=
  ⟨rfl, rfl,
    disable_watcher_skips_restart feOk argsPlain envNoWatch optsPlain
      "next.config.js" afterFirstStart rfl rfl⟩

/-- C10: the payload field `allowRetry` is true exactly when neither
`--port` nor the `PORT` environment variable is set, and every
`startServer` call built from the session's options snapshot carries
that value. -/
theorem allow_retry_iff_no_port (args : DevArgs) (env : DevEnv)
    (dir : String) (port : Nat) (ei xi : List String) (fe : FailEnv)
    (reboot : Bool) (s : OrchState) :
    (allowRetry args env = true ↔
      args.port = none ∧ env.portEnv = none) ∧
    ∀ w o, DevAction.startServer w o ∈
        (runDevServer fe args (mkDevServerOptions args env dir port ei xi)
          reboot s).2.1 →
      o.allowRetry = allowRetry args env := by
  constructor
  · simp [allowRetry, Option.isNone_iff_eq_none]
  · intro w o hm
    have ho := runDevServer_start_payload fe args _ reboot s w o hm
    rw [ho]
    split <;> rfl

end NextDev
